import Mathlib

/-!
# RenderStream-Unity native plugin: `Events.h` and `DX12System.h`

A shallow embedding of the two headers of the native rendering plugin.

* Native pointers are addresses (`Ptr`), `nullptr` being address 0.
* Everything the headers call but do not define (Unity interfaces, COM
  `QueryInterface`, the RenderStream function behind the stored function
  pointer, the enumerators of `d3renderstream.h`, `S_OK`) is a field of `Host`.
* Every call that leaves the plugin, and every log line, is recorded in a trace
  of `Effect`s, in program order.
* A call through a null function pointer never returns; this is recorded as the
  value `none` / `returned = false`.
-/

namespace NativeRenderingPlugin

/-- A native pointer, by address. -/
abbrev Ptr := Nat

/-- The null pointer. -/
def nullptr : Ptr := 0

/-- Conversion of an `int` to `unsigned int` (32 bit), as in the comparison
`command == (int)EventID::GET_FRAME_IMAGE` with `unsigned int command`. -/
def toUnsigned (i : Int) : Nat := (i % 2 ^ 32).toNat

namespace EventID

/-- Enumerator `USER_EVENTS_START = 128` of `enum class EventID`. -/
def USER_EVENTS_START : Int := 128

/-- Enumerator `GET_FRAME_IMAGE = USER_EVENTS_START`. -/
def GET_FRAME_IMAGE : Int := USER_EVENTS_START

/-- Enumerator `USER_EVENTS_END`, one more than the enumerator before it. -/
def USER_EVENTS_END : Int := GET_FRAME_IMAGE + 1

end EventID

/-- The two interface IDs `Execute` queries a texture for. -/
inductive IID
  | IID_ID3D11Resource
  | IID_ID3D12Resource
  deriving DecidableEq

/-- The two Unity graphics interfaces an `EventProcessor` may hold. -/
inductive GraphicsAPI
  | D3D11
  | D3D12
  deriving DecidableEq

/-- The union `SenderFrameTypeData`, as far as `Execute` fills it:
`zeroed` is `{}`, `dx11 r` is `{}` with `dx11.resource = r`, `dx12 r` is `{}`
with `dx12.resource = r`. -/
inductive SenderFrameTypeData
  | zeroed
  | dx11 (resource : Ptr)
  | dx12 (resource : Ptr)
  deriving DecidableEq

/-- What the plugin does to the outside world, in program order. -/
inductive Effect
  | LogError (message : String) (value : Option Int)
  | QueryInterface (object : Ptr) (iid : IID)
  | TextureFromNativeTexture (api : GraphicsAPI) (graphics : Ptr) (source : Nat)
  | rs_getFrameImage (fn : Ptr) (imageId : Int) (frameType : Int) (data : SenderFrameTypeData)
  deriving DecidableEq

/-- The world outside the two headers. The enumerators of
`Disguise/d3renderstream.h` and `S_OK` are not defined in the headers and are
taken as parameters, as are the behaviours of the host objects, keyed by the
address of the object called. -/
structure Host where
  /-- The constant `S_OK` of the Windows headers. -/
  S_OK : Int
  /-- Enumerator `RS_ERROR_SUCCESS` of `RS_ERROR`. -/
  RS_ERROR_SUCCESS : Int
  /-- Enumerator `RS_ERROR_INVALID_PARAMETERS` of `RS_ERROR`. -/
  RS_ERROR_INVALID_PARAMETERS : Int
  /-- Enumerator `RS_FRAMETYPE_UNKNOWN` of `SenderFrameType`. -/
  RS_FRAMETYPE_UNKNOWN : Int
  /-- Enumerator `RS_FRAMETYPE_DX11_TEXTURE` of `SenderFrameType`. -/
  RS_FRAMETYPE_DX11_TEXTURE : Int
  /-- Enumerator `RS_FRAMETYPE_DX12_TEXTURE` of `SenderFrameType`. -/
  RS_FRAMETYPE_DX12_TEXTURE : Int
  /-- Result of `object->QueryInterface(iid, &out)`: the `HRESULT` and the pointer written to `out`. -/
  QueryInterface : Ptr → IID → Int × Ptr
  /-- Result of `graphics->TextureFromNativeTexture(source)` on the interface of the given API. -/
  TextureFromNativeTexture : GraphicsAPI → Ptr → Nat → Ptr
  /-- The `RS_ERROR` returned by the function at address `fn` (a non-null address). -/
  getFrameImage : Ptr → Int → Int → SenderFrameTypeData → Int
  /-- Result of `graphics->GetDevice()` on an `IUnityGraphicsD3D12v5`. -/
  GetDevice : Ptr → Ptr
  /-- Result of `graphics->GetCommandQueue()` on an `IUnityGraphicsD3D12v5`. -/
  GetCommandQueue : Ptr → Ptr

/-- The `IUnityInterfaces` registry: what `Get<T>()` returns for the three
interfaces the headers ask for (null when the interface is not available). -/
structure IUnityInterfaces where
  Get_IUnityGraphicsD3D11 : Ptr
  Get_IUnityGraphicsD3D12v6 : Ptr
  Get_IUnityGraphicsD3D12v5 : Ptr
  deriving DecidableEq

/-- The part of `UnityRenderingExtCustomBlitParams` that `ProcessCustomBlit` reads. -/
structure UnityRenderingExtCustomBlitParams where
  source : Nat
  deriving DecidableEq

/-- The payload of `EventID::GET_FRAME_IMAGE`: `struct GetFrameImageData`. -/
structure GetFrameImageData where
  /-- Function pointer into the Disguise DLL. -/
  m_rs_getFrameImage : Ptr
  m_ImageID : Int
  deriving DecidableEq

/-- Result of a function returning `RS_ERROR`: the effects performed, and the
value returned (`none` when control never returned, after a call through a
null function pointer). -/
structure Outcome where
  trace : List Effect
  value : Option Int
  deriving DecidableEq

/-- A call `fn(imageId, frameType, data)` through a function pointer: the
callee's return value, or `none` when `fn` is null. -/
def Host.callThrough (h : Host) (fn : Ptr) (imageId : Int) (frameType : Int)
    (data : SenderFrameTypeData) : Option Int :=
  if fn = nullptr then none else some (h.getFrameImage fn imageId frameType data)

/-- Member function `GetFrameImageData::Execute(IUnknown* texture)`. -/
def GetFrameImageData.Execute (h : Host) (self : GetFrameImageData) (texture : Ptr) : Outcome :=
  if texture = nullptr then
    { trace := [Effect.LogError "GetFrameImageData null texture pointer" none]
      value := some h.RS_ERROR_INVALID_PARAMETERS }
  else if (h.QueryInterface texture IID.IID_ID3D11Resource).1 = h.S_OK then
    let senderType := h.RS_FRAMETYPE_DX11_TEXTURE
    let senderData := SenderFrameTypeData.dx11 (h.QueryInterface texture IID.IID_ID3D11Resource).2
    { trace := [Effect.QueryInterface texture IID.IID_ID3D11Resource,
                Effect.rs_getFrameImage self.m_rs_getFrameImage self.m_ImageID senderType senderData]
      value := h.callThrough self.m_rs_getFrameImage self.m_ImageID senderType senderData }
  else if (h.QueryInterface texture IID.IID_ID3D12Resource).1 = h.S_OK then
    let senderType := h.RS_FRAMETYPE_DX12_TEXTURE
    let senderData := SenderFrameTypeData.dx12 (h.QueryInterface texture IID.IID_ID3D12Resource).2
    { trace := [Effect.QueryInterface texture IID.IID_ID3D11Resource,
                Effect.QueryInterface texture IID.IID_ID3D12Resource,
                Effect.rs_getFrameImage self.m_rs_getFrameImage self.m_ImageID senderType senderData]
      value := h.callThrough self.m_rs_getFrameImage self.m_ImageID senderType senderData }
  else
    { trace := [Effect.QueryInterface texture IID.IID_ID3D11Resource,
                Effect.QueryInterface texture IID.IID_ID3D12Resource,
                Effect.LogError "GetFrameImageData unknown texture type" none]
      value := some h.RS_ERROR_INVALID_PARAMETERS }

/-- The fields of `class EventProcessor`. -/
structure EventProcessor where
  m_DX11Graphics : Ptr
  m_DX12Graphics : Ptr
  m_GetFrameImageData : GetFrameImageData
  deriving DecidableEq

/-- Result of a constructor or `void` member function of `EventProcessor`: the
object afterwards, the effects performed, and whether control returned. -/
structure Step where
  state : EventProcessor
  trace : List Effect
  returned : Bool
  deriving DecidableEq

/-- The constructor `EventProcessor::EventProcessor(IUnityInterfaces*)` (named
`ctor`, the class name being taken by the structure); the payload is
value-initialised (null function pointer, image ID 0). -/
def EventProcessor.ctor (unityInterfaces : IUnityInterfaces) : Step :=
  let m_DX11Graphics := unityInterfaces.Get_IUnityGraphicsD3D11
  let m_DX12Graphics := unityInterfaces.Get_IUnityGraphicsD3D12v6
  { state := { m_DX11Graphics := m_DX11Graphics
               m_DX12Graphics := m_DX12Graphics
               m_GetFrameImageData := { m_rs_getFrameImage := nullptr, m_ImageID := 0 } }
    trace :=
      if m_DX11Graphics = nullptr ∧ m_DX12Graphics = nullptr then
        [Effect.LogError "EventProcessor: The current graphics API is not supported." none]
      else []
    returned := true }

/-- Member function `EventProcessor::ProcessEventAndData(int eventID, void* data)`; `data` is
the `GetFrameImageData` the pointer refers to. -/
def EventProcessor.ProcessEventAndData (self : EventProcessor) (eventID : Int)
    (data : GetFrameImageData) : Step :=
  if eventID = EventID.GET_FRAME_IMAGE then
    { state := { self with m_GetFrameImageData := data }
      trace := []
      returned := true }
  else
    { state := self
      trace := [Effect.LogError "Unsupported event ID" (some eventID)]
      returned := true }

/-- Member function `EventProcessor::ProcessCustomBlit(unsigned int command,
UnityRenderingExtCustomBlitParams* data)`; `data` is the structure the pointer
refers to. -/
def EventProcessor.ProcessCustomBlit (h : Host) (self : EventProcessor) (command : Nat)
    (data : UnityRenderingExtCustomBlitParams) : Step :=
  if command = toUnsigned EventID.GET_FRAME_IMAGE then
    if self.m_DX11Graphics ≠ nullptr then
      let texture := h.TextureFromNativeTexture GraphicsAPI.D3D11 self.m_DX11Graphics data.source
      let lookup := Effect.TextureFromNativeTexture GraphicsAPI.D3D11 self.m_DX11Graphics data.source
      let result := self.m_GetFrameImageData.Execute h texture
      match result.value with
      | none => { state := self, trace := lookup :: result.trace, returned := false }
      | some r =>
        if r ≠ h.RS_ERROR_SUCCESS then
          { state := self
            trace := lookup :: result.trace ++ [Effect.LogError "EventID::GET_FRAME_IMAGE error" (some r)]
            returned := true }
        else { state := self, trace := lookup :: result.trace, returned := true }
    else if self.m_DX12Graphics ≠ nullptr then
      let texture := h.TextureFromNativeTexture GraphicsAPI.D3D12 self.m_DX12Graphics data.source
      let lookup := Effect.TextureFromNativeTexture GraphicsAPI.D3D12 self.m_DX12Graphics data.source
      let result := self.m_GetFrameImageData.Execute h texture
      match result.value with
      | none => { state := self, trace := lookup :: result.trace, returned := false }
      | some r =>
        if r ≠ h.RS_ERROR_SUCCESS then
          { state := self
            trace := lookup :: result.trace ++ [Effect.LogError "EventID::GET_FRAME_IMAGE error" (some r)]
            returned := true }
        else { state := self, trace := lookup :: result.trace, returned := true }
    else
      { state := self
        trace := [Effect.LogError "EventProcessor: The current graphics API is not supported." none]
        returned := true }
  else
    { state := self
      trace := [Effect.LogError "Unsupported event ID" (some (command : Int))]
      returned := true }

/-- The fields of `class DX12System`. -/
structure DX12System where
  m_UnityGraphics : Ptr
  m_Device : Ptr
  m_CommandQueue : Ptr
  m_IsInitialized : Bool
  deriving DecidableEq

/-- The constructor `DX12System::DX12System(IUnityInterfaces*)`, with the
errors it logs. -/
def DX12System.ctor (h : Host) (unityInterfaces : IUnityInterfaces) : DX12System × List Effect :=
  let m_UnityGraphics := unityInterfaces.Get_IUnityGraphicsD3D12v5
  if m_UnityGraphics = nullptr then
    ({ m_UnityGraphics := m_UnityGraphics
       m_Device := nullptr
       m_CommandQueue := nullptr
       m_IsInitialized := false },
     [Effect.LogError "DX12System: Failed to fetch DX12 interface." none])
  else
    let m_Device := h.GetDevice m_UnityGraphics
    let m_CommandQueue := h.GetCommandQueue m_UnityGraphics
    ({ m_UnityGraphics := m_UnityGraphics
       m_Device := m_Device
       m_CommandQueue := m_CommandQueue
       m_IsInitialized := decide (m_Device ≠ nullptr ∧ m_CommandQueue ≠ nullptr) },
     (if m_Device = nullptr then
        [Effect.LogError "DX12System: Failed to fetch DX12 device." none] else []) ++
     (if m_CommandQueue = nullptr then
        [Effect.LogError "DX12System: Failed to fetch DX12 command queue." none] else []))

/-- Member function `DX12System::IsInitialized()`. -/
def DX12System.IsInitialized (self : DX12System) : Bool := self.m_IsInitialized

/-- Member function `DX12System::GetDevice()`. -/
def DX12System.GetDevice (self : DX12System) : Ptr := self.m_Device

/-- Member function `DX12System::GetCommandQueue()`. -/
def DX12System.GetCommandQueue (self : DX12System) : Ptr := self.m_CommandQueue

/-! ## Observations on traces -/

/-- The calls through the stored function pointer in a trace, in order. -/
def calls (t : List Effect) : List Effect :=
  t.filter fun e => match e with
    | Effect.rs_getFrameImage _ _ _ _ => true
    | _ => false

/-- The texture lookups through a Unity graphics interface in a trace, in order. -/
def lookups (t : List Effect) : List Effect :=
  t.filter fun e => match e with
    | Effect.TextureFromNativeTexture _ _ _ => true
    | _ => false

/-- A sequence of `ProcessEventAndData` calls, each given by its event ID and
payload, run from left to right on a processor. -/
def processEvents (self : EventProcessor) (events : List (Int × GetFrameImageData)) :
    EventProcessor :=
  events.foldl (fun s e => (s.ProcessEventAndData e.1 e.2).state) self

/-- A member-function call on an `EventProcessor`. -/
inductive Call
  | ProcessEventAndData (eventID : Int) (data : GetFrameImageData)
  | ProcessCustomBlit (command : Nat) (data : UnityRenderingExtCustomBlitParams)
  deriving DecidableEq

/-- One member-function call. -/
def Call.step (h : Host) (self : EventProcessor) : Call → Step
  | Call.ProcessEventAndData eventID data => self.ProcessEventAndData eventID data
  | Call.ProcessCustomBlit command data => self.ProcessCustomBlit h command data

/-- The processor after a sequence of member-function calls, run from left to
right (the object each call leaves behind is handed to the next). -/
def runCalls (h : Host) (self : EventProcessor) (cs : List Call) : EventProcessor :=
  cs.foldl (fun s c => (c.step h s).state) self

/-- The line logged by the `else` branch of both dispatchers for the value `v`. -/
def unsupportedLog (v : Int) : Effect := Effect.LogError "Unsupported event ID" (some v)

/-- The integer `v`, passed as `eventID`, does not take the unsupported branch
of `ProcessEventAndData`. -/
def SupportedEvent (v : Int) : Prop :=
  ∃ (s : EventProcessor) (d : GetFrameImageData),
    unsupportedLog v ∉ (s.ProcessEventAndData v d).trace

/-- The integer `v`, passed as `command`, does not take the unsupported branch
of `ProcessCustomBlit`. -/
def SupportedCommand (v : Int) : Prop :=
  ∃ (h : Host) (s : EventProcessor) (p : UnityRenderingExtCustomBlitParams),
    0 ≤ v ∧ unsupportedLog v ∉ (s.ProcessCustomBlit h v.toNat p).trace

/-- A sample host: `S_OK = 0`, `RS_ERROR_SUCCESS = 0`; the object at address 10
answers the D3D11 resource query only, the one at 20 the D3D12 query only, the
one at 30 both, every other object neither; a texture lookup returns the
texture ID as address; the function at address 100 succeeds, every other
function returns error 3; the D3D12 interface at address 5 supplies device 50
and queue 60, the one at address 6 device 50 and no queue. -/
def sampleHost : Host where
  S_OK := 0
  RS_ERROR_SUCCESS := 0
  RS_ERROR_INVALID_PARAMETERS := 8
  RS_FRAMETYPE_UNKNOWN := 5
  RS_FRAMETYPE_DX11_TEXTURE := 1
  RS_FRAMETYPE_DX12_TEXTURE := 2
  QueryInterface := fun object iid =>
    match iid with
    | IID.IID_ID3D11Resource =>
      if object = 10 ∨ object = 30 then (0, object + 1) else (-2147467262, 0)
    | IID.IID_ID3D12Resource =>
      if object = 20 ∨ object = 30 then (0, object + 2) else (-2147467262, 0)
  TextureFromNativeTexture := fun _ _ source => source
  getFrameImage := fun fn _ _ _ => if fn = 100 then 0 else 3
  GetDevice := fun g => if g = 5 ∨ g = 6 then 50 else 0
  GetCommandQueue := fun g => if g = 5 then 60 else 0

end NativeRenderingPlugin

namespace NativeRenderingPlugin

/-! ## Helper lemmas -/

theorem toUnsigned_GET_FRAME_IMAGE : toUnsigned EventID.GET_FRAME_IMAGE = 128 := by
  decide

theorem calls_cons_lookup (api : GraphicsAPI) (g : Ptr) (src : Nat) (t : List Effect) :
    calls (Effect.TextureFromNativeTexture api g src :: t) = calls t := by
  simp [calls]

theorem calls_append_log (t : List Effect) (m : String) (v : Option Int) :
    calls (t ++ [Effect.LogError m v]) = calls t := by
  simp [calls]

theorem lookups_cons_lookup (api : GraphicsAPI) (g : Ptr) (src : Nat) (t : List Effect) :
    lookups (Effect.TextureFromNativeTexture api g src :: t) =
      Effect.TextureFromNativeTexture api g src :: lookups t := by
  simp [lookups]

theorem lookups_append_log (t : List Effect) (m : String) (v : Option Int) :
    lookups (t ++ [Effect.LogError m v]) = lookups t := by
  simp [lookups]

/-- The function `Execute` performs no texture lookup. -/
theorem lookups_Execute (h : Host) (self : GetFrameImageData) (texture : Ptr) :
    lookups (self.Execute h texture).trace = [] := by
  unfold GetFrameImageData.Execute
  split_ifs <;> simp [lookups]

/-- The function `Execute` never logs the line of the unsupported branch. -/
theorem unsupportedLog_not_mem_Execute (h : Host) (self : GetFrameImageData) (texture : Ptr)
    (v : Int) : unsupportedLog v ∉ (self.Execute h texture).trace := by
  unfold GetFrameImageData.Execute unsupportedLog
  split_ifs <;> simp

/-- Shape of the trace of a custom blit for `GET_FRAME_IMAGE` through the D3D11
interface: the lookup, then `Execute` on the texture found, then at most a log
line. -/
theorem ProcessCustomBlit_trace_D3D11 (h : Host) (s : EventProcessor)
    (p : UnityRenderingExtCustomBlitParams) (h11 : s.m_DX11Graphics ≠ nullptr) :
    ∃ m v, (s.ProcessCustomBlit h (toUnsigned EventID.GET_FRAME_IMAGE) p).trace =
        Effect.TextureFromNativeTexture GraphicsAPI.D3D11 s.m_DX11Graphics p.source ::
          (s.m_GetFrameImageData.Execute h
            (h.TextureFromNativeTexture GraphicsAPI.D3D11 s.m_DX11Graphics p.source)).trace ∨
      (s.ProcessCustomBlit h (toUnsigned EventID.GET_FRAME_IMAGE) p).trace =
        Effect.TextureFromNativeTexture GraphicsAPI.D3D11 s.m_DX11Graphics p.source ::
          (s.m_GetFrameImageData.Execute h
            (h.TextureFromNativeTexture GraphicsAPI.D3D11 s.m_DX11Graphics p.source)).trace ++
          [Effect.LogError m v] ∧ m ≠ "Unsupported event ID" := by
  simp only [EventProcessor.ProcessCustomBlit, if_pos h11, if_true]
  cases hv : (s.m_GetFrameImageData.Execute h
      (h.TextureFromNativeTexture GraphicsAPI.D3D11 s.m_DX11Graphics p.source)).value with
  | none => exact ⟨"", none, Or.inl rfl⟩
  | some r =>
    by_cases hr : r = h.RS_ERROR_SUCCESS
    · exact ⟨"", none, Or.inl (by simp [hr])⟩
    · exact ⟨"EventID::GET_FRAME_IMAGE error", some r, Or.inr ⟨by simp [hr], by decide⟩⟩

/-- Shape of the trace of a custom blit for `GET_FRAME_IMAGE` through the D3D12
interface, used when the D3D11 one is null. -/
theorem ProcessCustomBlit_trace_D3D12 (h : Host) (s : EventProcessor)
    (p : UnityRenderingExtCustomBlitParams) (h11 : s.m_DX11Graphics = nullptr)
    (h12 : s.m_DX12Graphics ≠ nullptr) :
    ∃ m v, (s.ProcessCustomBlit h (toUnsigned EventID.GET_FRAME_IMAGE) p).trace =
        Effect.TextureFromNativeTexture GraphicsAPI.D3D12 s.m_DX12Graphics p.source ::
          (s.m_GetFrameImageData.Execute h
            (h.TextureFromNativeTexture GraphicsAPI.D3D12 s.m_DX12Graphics p.source)).trace ∨
      (s.ProcessCustomBlit h (toUnsigned EventID.GET_FRAME_IMAGE) p).trace =
        Effect.TextureFromNativeTexture GraphicsAPI.D3D12 s.m_DX12Graphics p.source ::
          (s.m_GetFrameImageData.Execute h
            (h.TextureFromNativeTexture GraphicsAPI.D3D12 s.m_DX12Graphics p.source)).trace ++
          [Effect.LogError m v] ∧ m ≠ "Unsupported event ID" := by
  have hn : ¬ s.m_DX11Graphics ≠ nullptr := fun hc => hc h11
  simp only [EventProcessor.ProcessCustomBlit, if_neg hn, if_pos h12, if_true]
  cases hv : (s.m_GetFrameImageData.Execute h
      (h.TextureFromNativeTexture GraphicsAPI.D3D12 s.m_DX12Graphics p.source)).value with
  | none => exact ⟨"", none, Or.inl rfl⟩
  | some r =>
    by_cases hr : r = h.RS_ERROR_SUCCESS
    · exact ⟨"", none, Or.inl (by simp [hr])⟩
    · exact ⟨"EventID::GET_FRAME_IMAGE error", some r, Or.inr ⟨by simp [hr], by decide⟩⟩

/-- With neither graphics interface, a custom blit for `GET_FRAME_IMAGE` only logs. -/
theorem ProcessCustomBlit_trace_none (h : Host) (s : EventProcessor)
    (p : UnityRenderingExtCustomBlitParams) (h11 : s.m_DX11Graphics = nullptr)
    (h12 : s.m_DX12Graphics = nullptr) :
    (s.ProcessCustomBlit h (toUnsigned EventID.GET_FRAME_IMAGE) p).trace =
      [Effect.LogError "EventProcessor: The current graphics API is not supported." none] := by
  simp [EventProcessor.ProcessCustomBlit, h11, h12]

/-- Every other command only logs the unsupported line. -/
theorem ProcessCustomBlit_trace_other (h : Host) (s : EventProcessor) (command : Nat)
    (p : UnityRenderingExtCustomBlitParams)
    (hc : command ≠ toUnsigned EventID.GET_FRAME_IMAGE) :
    (s.ProcessCustomBlit h command p).trace = [unsupportedLog (command : Int)] := by
  simp [EventProcessor.ProcessCustomBlit, hc, unsupportedLog]

/-- The function `ProcessCustomBlit` is a frame for the whole object. -/
theorem ProcessCustomBlit_state (h : Host) (s : EventProcessor) (command : Nat)
    (p : UnityRenderingExtCustomBlitParams) : (s.ProcessCustomBlit h command p).state = s := by
  unfold EventProcessor.ProcessCustomBlit
  split_ifs <;> (try dsimp only) <;> (try split) <;> (try split_ifs) <;> rfl

theorem processEvents_append (s : EventProcessor) (a b : List (Int × GetFrameImageData)) :
    processEvents s (a ++ b) = processEvents (processEvents s a) b := by
  simp [processEvents, List.foldl_append]

/-- Events with an unsupported ID leave the whole object as it was. -/
theorem processEvents_unsupported (s : EventProcessor) (l : List (Int × GetFrameImageData))
    (hl : ∀ e ∈ l, e.1 ≠ EventID.GET_FRAME_IMAGE) : processEvents s l = s := by
  induction l generalizing s with
  | nil => rfl
  | cons e t ih =>
    have he : e.1 ≠ EventID.GET_FRAME_IMAGE := hl e (List.mem_cons_self e t)
    have ht : ∀ x ∈ t, x.1 ≠ EventID.GET_FRAME_IMAGE :=
      fun x hx => hl x (List.mem_cons_of_mem e hx)
    have hstep : (s.ProcessEventAndData e.1 e.2).state = s := by
      simp [EventProcessor.ProcessEventAndData, he]
    show processEvents (s.ProcessEventAndData e.1 e.2).state t = s
    rw [hstep]
    exact ih s ht

/-- A sequence with a `GET_FRAME_IMAGE` event splits at the last one. -/
theorem exists_last_GET_FRAME_IMAGE (l : List (Int × GetFrameImageData))
    (hl : ∃ e ∈ l, e.1 = EventID.GET_FRAME_IMAGE) :
    ∃ before d after, l = before ++ (EventID.GET_FRAME_IMAGE, d) :: after ∧
      ∀ e ∈ after, e.1 ≠ EventID.GET_FRAME_IMAGE := by
  induction l with
  | nil =>
    obtain ⟨e, he, _⟩ := hl
    exact absurd he (List.not_mem_nil e)
  | cons a t ih =>
    by_cases ht : ∃ e ∈ t, e.1 = EventID.GET_FRAME_IMAGE
    · obtain ⟨before, d, after, hsplit, hafter⟩ := ih ht
      exact ⟨a :: before, d, after, by rw [hsplit]; rfl, hafter⟩
    · have hnone : ∀ e ∈ t, e.1 ≠ EventID.GET_FRAME_IMAGE :=
        fun e he heq => ht ⟨e, he, heq⟩
      obtain ⟨e, he, heq⟩ := hl
      rcases List.mem_cons.mp he with hea | het
      · subst hea
        refine ⟨[], e.2, t, ?_, hnone⟩
        rw [← heq]
        rfl
      · exact absurd heq (hnone e het)

theorem runCalls_graphics (h : Host) (s : EventProcessor) (cs : List Call) :
    (runCalls h s cs).m_DX11Graphics = s.m_DX11Graphics ∧
      (runCalls h s cs).m_DX12Graphics = s.m_DX12Graphics := by
  induction cs generalizing s with
  | nil => exact ⟨rfl, rfl⟩
  | cons c t ih =>
    have hstep : (c.step h s).state.m_DX11Graphics = s.m_DX11Graphics ∧
        (c.step h s).state.m_DX12Graphics = s.m_DX12Graphics := by
      cases c with
      | ProcessEventAndData eventID data =>
        simp only [Call.step, EventProcessor.ProcessEventAndData]
        split_ifs <;> exact ⟨rfl, rfl⟩
      | ProcessCustomBlit command data =>
        simp [Call.step, ProcessCustomBlit_state]
    have := ih (c.step h s).state
    show (runCalls h (c.step h s).state t).m_DX11Graphics = _ ∧
      (runCalls h (c.step h s).state t).m_DX12Graphics = _
    rw [this.1, this.2]
    exact hstep

/-- A non-null texture that answers one of the two queries is forwarded by one
call through the stored function pointer. -/
theorem calls_Execute_of_answer (h : Host) (self : GetFrameImageData) (texture : Ptr)
    (htex : texture ≠ nullptr)
    (hq : (h.QueryInterface texture IID.IID_ID3D11Resource).1 = h.S_OK ∨
      (h.QueryInterface texture IID.IID_ID3D12Resource).1 = h.S_OK) :
    ∃ frameType data, calls (self.Execute h texture).trace =
      [Effect.rs_getFrameImage self.m_rs_getFrameImage self.m_ImageID frameType data] := by
  by_cases h11 : (h.QueryInterface texture IID.IID_ID3D11Resource).1 = h.S_OK
  · simp [GetFrameImageData.Execute, htex, h11, calls]
  · have h12 : (h.QueryInterface texture IID.IID_ID3D12Resource).1 = h.S_OK :=
      hq.resolve_left h11
    simp [GetFrameImageData.Execute, htex, h11, h12, calls]

theorem SupportedEvent_iff (v : Int) : SupportedEvent v ↔ v = EventID.GET_FRAME_IMAGE := by
  constructor
  · rintro ⟨s, d, hs⟩
    by_contra hv
    exact hs (by simp [EventProcessor.ProcessEventAndData, hv, unsupportedLog])
  · intro hv
    exact ⟨⟨0, 0, ⟨0, 0⟩⟩, ⟨0, 0⟩, by simp [EventProcessor.ProcessEventAndData, hv]⟩

theorem SupportedCommand_iff (v : Int) : SupportedCommand v ↔ v = EventID.GET_FRAME_IMAGE := by
  constructor
  · rintro ⟨h, s, p, hv0, hs⟩
    by_contra hv
    have hc : v.toNat ≠ toUnsigned EventID.GET_FRAME_IMAGE := by
      rw [toUnsigned_GET_FRAME_IMAGE]
      intro hc
      apply hv
      have : ((v.toNat : Nat) : Int) = v := Int.toNat_of_nonneg hv0
      rw [← this, hc]
      rfl
    apply hs
    rw [ProcessCustomBlit_trace_other h s v.toNat p hc, Int.toNat_of_nonneg hv0]
    exact List.mem_singleton.mpr rfl
  · intro hv
    subst hv
    refine ⟨sampleHost, ⟨0, 0, ⟨0, 0⟩⟩, ⟨0⟩, by decide, ?_⟩
    decide

/-! ## `GetFrameImageData::Execute` -/

/-- C1: for a non-null texture, if the D3D11 resource query succeeds the stored
function pointer is invoked exactly once with the image ID,
`RS_FRAMETYPE_DX11_TEXTURE` and the D3D11 resource (whatever the D3D12 query
would answer); otherwise, if the D3D12 resource query succeeds, it is invoked
exactly once with the image ID, `RS_FRAMETYPE_DX12_TEXTURE` and the D3D12
resource; in both cases `Execute` returns what that call returned. -/
theorem Execute_forwards_texture (h : Host) (self : GetFrameImageData) (texture : Ptr)
    (htex : texture ≠ nullptr) :
    ((h.QueryInterface texture IID.IID_ID3D11Resource).1 = h.S_OK →
      calls (self.Execute h texture).trace =
        [Effect.rs_getFrameImage self.m_rs_getFrameImage self.m_ImageID
          h.RS_FRAMETYPE_DX11_TEXTURE
          (SenderFrameTypeData.dx11 (h.QueryInterface texture IID.IID_ID3D11Resource).2)] ∧
      (self.Execute h texture).value =
        h.callThrough self.m_rs_getFrameImage self.m_ImageID h.RS_FRAMETYPE_DX11_TEXTURE
          (SenderFrameTypeData.dx11 (h.QueryInterface texture IID.IID_ID3D11Resource).2) ∧
      (self.m_rs_getFrameImage ≠ nullptr →
        (self.Execute h texture).value =
          some (h.getFrameImage self.m_rs_getFrameImage self.m_ImageID
            h.RS_FRAMETYPE_DX11_TEXTURE
            (SenderFrameTypeData.dx11 (h.QueryInterface texture IID.IID_ID3D11Resource).2)))) ∧
    ((h.QueryInterface texture IID.IID_ID3D11Resource).1 ≠ h.S_OK →
      (h.QueryInterface texture IID.IID_ID3D12Resource).1 = h.S_OK →
      calls (self.Execute h texture).trace =
        [Effect.rs_getFrameImage self.m_rs_getFrameImage self.m_ImageID
          h.RS_FRAMETYPE_DX12_TEXTURE
          (SenderFrameTypeData.dx12 (h.QueryInterface texture IID.IID_ID3D12Resource).2)] ∧
      (self.Execute h texture).value =
        h.callThrough self.m_rs_getFrameImage self.m_ImageID h.RS_FRAMETYPE_DX12_TEXTURE
          (SenderFrameTypeData.dx12 (h.QueryInterface texture IID.IID_ID3D12Resource).2) ∧
      (self.m_rs_getFrameImage ≠ nullptr →
        (self.Execute h texture).value =
          some (h.getFrameImage self.m_rs_getFrameImage self.m_ImageID
            h.RS_FRAMETYPE_DX12_TEXTURE
            (SenderFrameTypeData.dx12 (h.QueryInterface texture IID.IID_ID3D12Resource).2)))) := by
  refine ⟨fun h11 => ?_, fun h11 h12 => ?_⟩
  · refine ⟨?_, ?_, fun hfn => ?_⟩ <;>
      simp [GetFrameImageData.Execute, htex, h11, calls, Host.callThrough]
    exact fun hnull => absurd hnull hfn
  · refine ⟨?_, ?_, fun hfn => ?_⟩ <;>
      simp [GetFrameImageData.Execute, htex, h11, h12, calls, Host.callThrough]
    exact fun hnull => absurd hnull hfn

/-- Witness for C1: on the sample host the texture at address 30 answers both
queries and is sent once, as a D3D11 texture, through the function at address
100, whose return value 0 is returned. -/
theorem Execute_forwards_texture_witness :
    (30 : Ptr) ≠ nullptr ∧
    (sampleHost.QueryInterface 30 IID.IID_ID3D11Resource).1 = sampleHost.S_OK ∧
    (sampleHost.QueryInterface 30 IID.IID_ID3D12Resource).1 = sampleHost.S_OK ∧
    calls (GetFrameImageData.Execute sampleHost ⟨100, 7⟩ 30).trace =
      [Effect.rs_getFrameImage 100 7 1 (SenderFrameTypeData.dx11 31)] ∧
    (GetFrameImageData.Execute sampleHost ⟨100, 7⟩ 30).value = some 0 :=
  ⟨by decide, by decide, by decide,
    ((Execute_forwards_texture sampleHost ⟨100, 7⟩ 30 (by decide)).1 (by decide)).1,
    ((Execute_forwards_texture sampleHost ⟨100, 7⟩ 30 (by decide)).1 (by decide)).2.2
      (by decide)⟩

/-- C2: `Execute` returns `RS_ERROR_INVALID_PARAMETERS` without invoking the
stored function pointer exactly when the texture is null or answers neither
the D3D11 nor the D3D12 resource query; in every other case the stored
function pointer is invoked exactly once. -/
theorem Execute_invalid_parameters_iff (h : Host) (self : GetFrameImageData) (texture : Ptr) :
    (((self.Execute h texture).value = some h.RS_ERROR_INVALID_PARAMETERS ∧
        calls (self.Execute h texture).trace = []) ↔
      (texture = nullptr ∨
        ((h.QueryInterface texture IID.IID_ID3D11Resource).1 ≠ h.S_OK ∧
          (h.QueryInterface texture IID.IID_ID3D12Resource).1 ≠ h.S_OK))) ∧
    (¬ (texture = nullptr ∨
        ((h.QueryInterface texture IID.IID_ID3D11Resource).1 ≠ h.S_OK ∧
          (h.QueryInterface texture IID.IID_ID3D12Resource).1 ≠ h.S_OK)) →
      ∃ frameType data,
        calls (self.Execute h texture).trace =
          [Effect.rs_getFrameImage self.m_rs_getFrameImage self.m_ImageID frameType data]) := by
  by_cases htex : texture = nullptr
  · simp [GetFrameImageData.Execute, htex, calls]
  · by_cases h11 : (h.QueryInterface texture IID.IID_ID3D11Resource).1 = h.S_OK
    · simp [GetFrameImageData.Execute, htex, h11, calls]
    · by_cases h12 : (h.QueryInterface texture IID.IID_ID3D12Resource).1 = h.S_OK
      · simp [GetFrameImageData.Execute, htex, h11, h12, calls]
      · simp [GetFrameImageData.Execute, htex, h11, h12, calls]

/-- Witness for C2: on the sample host the texture at address 20 answers the
D3D12 query, so the stored function pointer is invoked exactly once. -/
theorem Execute_invalid_parameters_iff_witness :
    ¬ ((20 : Ptr) = nullptr ∨
        ((sampleHost.QueryInterface 20 IID.IID_ID3D11Resource).1 ≠ sampleHost.S_OK ∧
          (sampleHost.QueryInterface 20 IID.IID_ID3D12Resource).1 ≠ sampleHost.S_OK)) ∧
    ∃ frameType data,
      calls (GetFrameImageData.Execute sampleHost ⟨100, 7⟩ 20).trace =
        [Effect.rs_getFrameImage 100 7 frameType data] :=
  ⟨by decide, (Execute_invalid_parameters_iff sampleHost ⟨100, 7⟩ 20).2 (by decide)⟩

/-! ## `EventProcessor` -/

/-- C3: last event wins. A sequence of `ProcessEventAndData` calls that
contains a `GET_FRAME_IMAGE` event splits at its last such event, and however
it is split at the last such event (only unsupported IDs after it), the payload
stored afterwards is the payload of that event. -/
theorem last_event_wins (s : EventProcessor) (events : List (Int × GetFrameImageData))
    (hex : ∃ e ∈ events, e.1 = EventID.GET_FRAME_IMAGE) :
    (∃ before d after, events = before ++ (EventID.GET_FRAME_IMAGE, d) :: after ∧
      (∀ e ∈ after, e.1 ≠ EventID.GET_FRAME_IMAGE) ∧
      (processEvents s events).m_GetFrameImageData = d) ∧
    (∀ before d after, events = before ++ (EventID.GET_FRAME_IMAGE, d) :: after →
      (∀ e ∈ after, e.1 ≠ EventID.GET_FRAME_IMAGE) →
      (processEvents s events).m_GetFrameImageData = d) := by
  have key : ∀ before d after, events = before ++ (EventID.GET_FRAME_IMAGE, d) :: after →
      (∀ e ∈ after, e.1 ≠ EventID.GET_FRAME_IMAGE) →
      (processEvents s events).m_GetFrameImageData = d := by
    intro before d after hsplit hafter
    rw [hsplit, processEvents_append]
    show (processEvents ((processEvents s before).ProcessEventAndData
      EventID.GET_FRAME_IMAGE d).state after).m_GetFrameImageData = d
    rw [processEvents_unsupported _ after hafter]
    simp [EventProcessor.ProcessEventAndData]
  obtain ⟨before, d, after, hsplit, hafter⟩ := exists_last_GET_FRAME_IMAGE events hex
  exact ⟨⟨before, d, after, hsplit, hafter, key before d after hsplit hafter⟩, key⟩

/-- Witness for C3: two `GET_FRAME_IMAGE` events with an unsupported event
(ID 129) before, between and after them leave the payload of the second. -/
theorem last_event_wins_witness :
    (∃ e ∈ [((129 : Int), (⟨1, 1⟩ : GetFrameImageData)), (128, ⟨100, 7⟩), (129, ⟨2, 2⟩),
        (128, ⟨200, 9⟩), (129, ⟨3, 3⟩)], e.1 = EventID.GET_FRAME_IMAGE) ∧
    (processEvents ⟨1, 0, ⟨0, 0⟩⟩
      [((129 : Int), (⟨1, 1⟩ : GetFrameImageData)), (128, ⟨100, 7⟩), (129, ⟨2, 2⟩),
        (128, ⟨200, 9⟩), (129, ⟨3, 3⟩)]).m_GetFrameImageData = ⟨200, 9⟩ :=
  ⟨⟨(128, ⟨100, 7⟩), by decide, by decide⟩,
    (last_event_wins ⟨1, 0, ⟨0, 0⟩⟩
      [((129 : Int), (⟨1, 1⟩ : GetFrameImageData)), (128, ⟨100, 7⟩), (129, ⟨2, 2⟩),
        (128, ⟨200, 9⟩), (129, ⟨3, 3⟩)]
      ⟨(128, ⟨100, 7⟩), by decide, by decide⟩).2
      [((129 : Int), (⟨1, 1⟩ : GetFrameImageData)), (128, ⟨100, 7⟩), (129, ⟨2, 2⟩)]
      ⟨200, 9⟩ [(129, ⟨3, 3⟩)] (by decide) (by decide)⟩

/-- C8: `ProcessEventAndData` with an event ID other than `GET_FRAME_IMAGE`
leaves the stored function pointer and image ID unchanged; `ProcessCustomBlit`
leaves them unchanged for every command and parameters; and neither operation,
nor any sequence of them, changes the two graphics-interface fields, which
stay what the constructor fetched. -/
theorem payload_changes_only_on_GET_FRAME_IMAGE (h : Host) (s : EventProcessor) :
    (∀ (eventID : Int) (d : GetFrameImageData), eventID ≠ EventID.GET_FRAME_IMAGE →
      (s.ProcessEventAndData eventID d).state.m_GetFrameImageData = s.m_GetFrameImageData) ∧
    (∀ (command : Nat) (p : UnityRenderingExtCustomBlitParams),
      (s.ProcessCustomBlit h command p).state.m_GetFrameImageData = s.m_GetFrameImageData) ∧
    (∀ (eventID : Int) (d : GetFrameImageData),
      (s.ProcessEventAndData eventID d).state.m_DX11Graphics = s.m_DX11Graphics ∧
      (s.ProcessEventAndData eventID d).state.m_DX12Graphics = s.m_DX12Graphics) ∧
    (∀ (command : Nat) (p : UnityRenderingExtCustomBlitParams),
      (s.ProcessCustomBlit h command p).state.m_DX11Graphics = s.m_DX11Graphics ∧
      (s.ProcessCustomBlit h command p).state.m_DX12Graphics = s.m_DX12Graphics) ∧
    (∀ cs : List Call,
      (runCalls h s cs).m_DX11Graphics = s.m_DX11Graphics ∧
      (runCalls h s cs).m_DX12Graphics = s.m_DX12Graphics) ∧
    (∀ (ui : IUnityInterfaces) (cs : List Call),
      (runCalls h (EventProcessor.ctor ui).state cs).m_DX11Graphics =
        ui.Get_IUnityGraphicsD3D11 ∧
      (runCalls h (EventProcessor.ctor ui).state cs).m_DX12Graphics =
        ui.Get_IUnityGraphicsD3D12v6) := by
  refine ⟨?_, ?_, ?_, ?_, ?_, ?_⟩
  · intro eventID d hne
    simp [EventProcessor.ProcessEventAndData, hne]
  · intro command p
    rw [ProcessCustomBlit_state]
  · intro eventID d
    simp only [EventProcessor.ProcessEventAndData]
    split_ifs <;> exact ⟨rfl, rfl⟩
  · intro command p
    rw [ProcessCustomBlit_state]
    exact ⟨rfl, rfl⟩
  · exact runCalls_graphics h s
  · intro ui cs
    exact runCalls_graphics h (EventProcessor.ctor ui).state cs

/-- Witness for C8: an event with ID 129 (`USER_EVENTS_END`) leaves the stored
payload as it was. -/
theorem payload_changes_only_on_GET_FRAME_IMAGE_witness :
    (129 : Int) ≠ EventID.GET_FRAME_IMAGE ∧
    ((⟨1, 0, ⟨100, 7⟩⟩ : EventProcessor).ProcessEventAndData 129 ⟨200, 9⟩).state.m_GetFrameImageData
      = ⟨100, 7⟩ :=
  ⟨by decide,
    (payload_changes_only_on_GET_FRAME_IMAGE sampleHost ⟨1, 0, ⟨100, 7⟩⟩).1 129 ⟨200, 9⟩
      (by decide)⟩

/-! ## `DX12System` -/

/-- C4: after construction `IsInitialized()` is true exactly when the Unity
D3D12 interface was obtained and the device and the command queue it returned
are both non-null; without the interface `IsInitialized()` is false and
`GetDevice()` and `GetCommandQueue()` are null; with it they are exactly the
handles the interface supplied. -/
theorem DX12System_validates_device_and_queue (h : Host) (ui : IUnityInterfaces) :
    ((DX12System.ctor h ui).1.IsInitialized = true ↔
      (ui.Get_IUnityGraphicsD3D12v5 ≠ nullptr ∧
        h.GetDevice ui.Get_IUnityGraphicsD3D12v5 ≠ nullptr ∧
        h.GetCommandQueue ui.Get_IUnityGraphicsD3D12v5 ≠ nullptr)) ∧
    (ui.Get_IUnityGraphicsD3D12v5 = nullptr →
      (DX12System.ctor h ui).1.IsInitialized = false ∧
      (DX12System.ctor h ui).1.GetDevice = nullptr ∧
      (DX12System.ctor h ui).1.GetCommandQueue = nullptr) ∧
    (ui.Get_IUnityGraphicsD3D12v5 ≠ nullptr →
      (DX12System.ctor h ui).1.GetDevice = h.GetDevice ui.Get_IUnityGraphicsD3D12v5 ∧
      (DX12System.ctor h ui).1.GetCommandQueue =
        h.GetCommandQueue ui.Get_IUnityGraphicsD3D12v5) := by
  by_cases hg : ui.Get_IUnityGraphicsD3D12v5 = nullptr
  · simp [DX12System.ctor, DX12System.IsInitialized, DX12System.GetDevice,
      DX12System.GetCommandQueue, hg]
  · simp [DX12System.ctor, DX12System.IsInitialized, DX12System.GetDevice,
      DX12System.GetCommandQueue, hg]

/-- Witness for C4: on the sample host, without the interface nothing is
initialised; the interface at address 6 supplies device 50 and a null queue,
which are handed out as they are. -/
theorem DX12System_validates_device_and_queue_witness :
    ((⟨0, 0, 0⟩ : IUnityInterfaces).Get_IUnityGraphicsD3D12v5 = nullptr ∧
      (DX12System.ctor sampleHost ⟨0, 0, 0⟩).1.IsInitialized = false ∧
      (DX12System.ctor sampleHost ⟨0, 0, 0⟩).1.GetDevice = nullptr ∧
      (DX12System.ctor sampleHost ⟨0, 0, 0⟩).1.GetCommandQueue = nullptr) ∧
    ((⟨0, 0, 6⟩ : IUnityInterfaces).Get_IUnityGraphicsD3D12v5 ≠ nullptr ∧
      (DX12System.ctor sampleHost ⟨0, 0, 6⟩).1.GetDevice = 50 ∧
      (DX12System.ctor sampleHost ⟨0, 0, 6⟩).1.GetCommandQueue = 0) :=
  ⟨⟨by decide,
      (DX12System_validates_device_and_queue sampleHost ⟨0, 0, 0⟩).2.1 (by decide)⟩,
    ⟨by decide,
      (DX12System_validates_device_and_queue sampleHost ⟨0, 0, 6⟩).2.2 (by decide)⟩⟩

/-! ## Dispatch -/

/-- C5: after `ProcessEventAndData(GET_FRAME_IMAGE, d)`, a
`ProcessCustomBlit(GET_FRAME_IMAGE, params)` whose texture lookup (through the
D3D11 interface when there is one, else through the D3D12 one) yields a
non-null texture answering the D3D11 or the D3D12 resource query makes exactly
one call through a function pointer: through the one of `d`, with the image ID
of `d`. -/
theorem custom_blit_dispatches_captured_pointer (h : Host) (s : EventProcessor)
    (d : GetFrameImageData) (p : UnityRenderingExtCustomBlitParams) (texture : Ptr)
    (hg : (s.m_DX11Graphics ≠ nullptr ∧
        texture = h.TextureFromNativeTexture GraphicsAPI.D3D11 s.m_DX11Graphics p.source) ∨
      (s.m_DX11Graphics = nullptr ∧ s.m_DX12Graphics ≠ nullptr ∧
        texture = h.TextureFromNativeTexture GraphicsAPI.D3D12 s.m_DX12Graphics p.source))
    (htex : texture ≠ nullptr)
    (hq : (h.QueryInterface texture IID.IID_ID3D11Resource).1 = h.S_OK ∨
      (h.QueryInterface texture IID.IID_ID3D12Resource).1 = h.S_OK) :
    ∃ frameType data,
      calls (((s.ProcessEventAndData EventID.GET_FRAME_IMAGE d).state.ProcessCustomBlit h
        (toUnsigned EventID.GET_FRAME_IMAGE) p).trace) =
        [Effect.rs_getFrameImage d.m_rs_getFrameImage d.m_ImageID frameType data] := by
  have hs : (s.ProcessEventAndData EventID.GET_FRAME_IMAGE d).state =
      { s with m_GetFrameImageData := d } := by
    simp [EventProcessor.ProcessEventAndData]
  rw [hs]
  rcases hg with ⟨h11, ht⟩ | ⟨h11, h12, ht⟩
  · obtain ⟨frameType, data, hcalls⟩ := calls_Execute_of_answer h d texture htex hq
    refine ⟨frameType, data, ?_⟩
    obtain ⟨m, v, htrace | ⟨htrace, _⟩⟩ :=
      ProcessCustomBlit_trace_D3D11 h { s with m_GetFrameImageData := d } p h11
    · rw [htrace, calls_cons_lookup, ← ht, hcalls]
    · rw [htrace, calls_append_log, calls_cons_lookup, ← ht, hcalls]
  · obtain ⟨frameType, data, hcalls⟩ := calls_Execute_of_answer h d texture htex hq
    refine ⟨frameType, data, ?_⟩
    obtain ⟨m, v, htrace | ⟨htrace, _⟩⟩ :=
      ProcessCustomBlit_trace_D3D12 h { s with m_GetFrameImageData := d } p h11 h12
    · rw [htrace, calls_cons_lookup, ← ht, hcalls]
    · rw [htrace, calls_append_log, calls_cons_lookup, ← ht, hcalls]

/-- Witness for C5: on the sample host, a processor with the D3D11 interface
at address 1 captures the payload (function 200, image 9); the blit of texture
10 then calls function 200 once with image 9. -/
theorem custom_blit_dispatches_captured_pointer_witness :
    ∃ frameType data,
      calls ((((⟨1, 0, ⟨100, 7⟩⟩ : EventProcessor).ProcessEventAndData
        EventID.GET_FRAME_IMAGE ⟨200, 9⟩).state.ProcessCustomBlit sampleHost
        (toUnsigned EventID.GET_FRAME_IMAGE) ⟨10⟩).trace) =
        [Effect.rs_getFrameImage 200 9 frameType data] :=
  custom_blit_dispatches_captured_pointer sampleHost ⟨1, 0, ⟨100, 7⟩⟩ ⟨200, 9⟩ ⟨10⟩ 10
    (Or.inl ⟨by decide, by decide⟩) (by decide) (Or.inl (by decide))

/-- C7: for command `GET_FRAME_IMAGE` the texture is looked up through the
D3D11 interface whenever it is non-null (whatever the D3D12 one is), through
the D3D12 interface when the D3D11 one is null and the D3D12 one is not, and
with both null there is neither a lookup nor a call through the stored function
pointer; for every other command (129 included) there is neither. -/
theorem custom_blit_interface_order (h : Host) (s : EventProcessor)
    (p : UnityRenderingExtCustomBlitParams) :
    (s.m_DX11Graphics ≠ nullptr →
      lookups (s.ProcessCustomBlit h (toUnsigned EventID.GET_FRAME_IMAGE) p).trace =
        [Effect.TextureFromNativeTexture GraphicsAPI.D3D11 s.m_DX11Graphics p.source]) ∧
    (s.m_DX11Graphics = nullptr → s.m_DX12Graphics ≠ nullptr →
      lookups (s.ProcessCustomBlit h (toUnsigned EventID.GET_FRAME_IMAGE) p).trace =
        [Effect.TextureFromNativeTexture GraphicsAPI.D3D12 s.m_DX12Graphics p.source]) ∧
    (s.m_DX11Graphics = nullptr → s.m_DX12Graphics = nullptr →
      lookups (s.ProcessCustomBlit h (toUnsigned EventID.GET_FRAME_IMAGE) p).trace = [] ∧
      calls (s.ProcessCustomBlit h (toUnsigned EventID.GET_FRAME_IMAGE) p).trace = []) ∧
    (∀ command : Nat, command ≠ toUnsigned EventID.GET_FRAME_IMAGE →
      lookups (s.ProcessCustomBlit h command p).trace = [] ∧
      calls (s.ProcessCustomBlit h command p).trace = []) ∧
    (lookups (s.ProcessCustomBlit h (toUnsigned EventID.USER_EVENTS_END) p).trace = [] ∧
      calls (s.ProcessCustomBlit h (toUnsigned EventID.USER_EVENTS_END) p).trace = []) := by
  have hother : ∀ command : Nat, command ≠ toUnsigned EventID.GET_FRAME_IMAGE →
      lookups (s.ProcessCustomBlit h command p).trace = [] ∧
      calls (s.ProcessCustomBlit h command p).trace = [] := by
    intro command hc
    rw [ProcessCustomBlit_trace_other h s command p hc]
    exact ⟨rfl, rfl⟩
  refine ⟨fun h11 => ?_, fun h11 h12 => ?_, fun h11 h12 => ?_, hother, hother _ (by decide)⟩
  · obtain ⟨m, v, htrace | ⟨htrace, _⟩⟩ := ProcessCustomBlit_trace_D3D11 h s p h11
    · rw [htrace, lookups_cons_lookup, lookups_Execute]
    · rw [htrace, lookups_append_log, lookups_cons_lookup, lookups_Execute]
  · obtain ⟨m, v, htrace | ⟨htrace, _⟩⟩ := ProcessCustomBlit_trace_D3D12 h s p h11 h12
    · rw [htrace, lookups_cons_lookup, lookups_Execute]
    · rw [htrace, lookups_append_log, lookups_cons_lookup, lookups_Execute]
  · rw [ProcessCustomBlit_trace_none h s p h11 h12]
    exact ⟨rfl, rfl⟩

/-- Witness for C7: with both interfaces present (addresses 1 and 2) the
lookup goes through the D3D11 one; with only the D3D12 one, through it; with
neither, nothing is looked up or called; command 127 does neither. -/
theorem custom_blit_interface_order_witness :
    lookups ((⟨1, 2, ⟨100, 7⟩⟩ : EventProcessor).ProcessCustomBlit sampleHost
      (toUnsigned EventID.GET_FRAME_IMAGE) ⟨10⟩).trace =
      [Effect.TextureFromNativeTexture GraphicsAPI.D3D11 1 10] ∧
    lookups ((⟨0, 2, ⟨100, 7⟩⟩ : EventProcessor).ProcessCustomBlit sampleHost
      (toUnsigned EventID.GET_FRAME_IMAGE) ⟨10⟩).trace =
      [Effect.TextureFromNativeTexture GraphicsAPI.D3D12 2 10] ∧
    (lookups ((⟨0, 0, ⟨100, 7⟩⟩ : EventProcessor).ProcessCustomBlit sampleHost
      (toUnsigned EventID.GET_FRAME_IMAGE) ⟨10⟩).trace = [] ∧
      calls ((⟨0, 0, ⟨100, 7⟩⟩ : EventProcessor).ProcessCustomBlit sampleHost
        (toUnsigned EventID.GET_FRAME_IMAGE) ⟨10⟩).trace = []) ∧
    (lookups ((⟨1, 2, ⟨100, 7⟩⟩ : EventProcessor).ProcessCustomBlit sampleHost 127
      ⟨10⟩).trace = [] ∧
      calls ((⟨1, 2, ⟨100, 7⟩⟩ : EventProcessor).ProcessCustomBlit sampleHost 127
        ⟨10⟩).trace = []) :=
  ⟨(custom_blit_interface_order sampleHost ⟨1, 2, ⟨100, 7⟩⟩ ⟨10⟩).1 (by decide),
    (custom_blit_interface_order sampleHost ⟨0, 2, ⟨100, 7⟩⟩ ⟨10⟩).2.1 (by decide) (by decide),
    (custom_blit_interface_order sampleHost ⟨0, 0, ⟨100, 7⟩⟩ ⟨10⟩).2.2.1 (by decide)
      (by decide),
    (custom_blit_interface_order sampleHost ⟨1, 2, ⟨100, 7⟩⟩ ⟨10⟩).2.2.2.1 127 (by decide)⟩

/-- C6, as stated, fails: there are no two distinct integers that take a
supported branch of `ProcessEventAndData` or `ProcessCustomBlit` (so there is
no pair of distinct supported values covering all supported values). -/
theorem not_two_supported_ids :
    ¬ ∃ a b : Int, a ≠ b ∧
      (SupportedEvent a ∨ SupportedCommand a) ∧ (SupportedEvent b ∨ SupportedCommand b) ∧
      ∀ v : Int, (SupportedEvent v ∨ SupportedCommand v) → v = a ∨ v = b := by
  rintro ⟨a, b, hab, ha, hb, _⟩
  have ha128 : a = EventID.GET_FRAME_IMAGE :=
    ha.elim (SupportedEvent_iff a).mp (SupportedCommand_iff a).mp
  have hb128 : b = EventID.GET_FRAME_IMAGE :=
    hb.elim (SupportedEvent_iff b).mp (SupportedCommand_iff b).mp
  exact hab (ha128.trans hb128.symm)

/-- C6, amended: exactly one integer, 128 (`GET_FRAME_IMAGE`, which is also
`USER_EVENTS_START`), takes a supported branch of `ProcessEventAndData` and of
`ProcessCustomBlit`; every other value, `USER_EVENTS_END = 129` included, takes
the unsupported branch, which logs the value and does nothing else. -/
theorem dispatch_has_one_supported_id :
    EventID.GET_FRAME_IMAGE = 128 ∧ EventID.USER_EVENTS_START = 128 ∧
    EventID.USER_EVENTS_END = 129 ∧
    (∀ v : Int, SupportedEvent v ↔ v = 128) ∧
    (∀ v : Int, SupportedCommand v ↔ v = 128) ∧
    (∀ (s : EventProcessor) (v : Int) (d : GetFrameImageData),
      (s.ProcessEventAndData v d).trace = [unsupportedLog v] ↔ v ≠ 128) ∧
    (∀ (h : Host) (s : EventProcessor) (c : Nat) (p : UnityRenderingExtCustomBlitParams),
      (s.ProcessCustomBlit h c p).trace = [unsupportedLog (c : Int)] ↔ c ≠ 128) := by
  refine ⟨rfl, rfl, rfl, SupportedEvent_iff, SupportedCommand_iff, ?_, ?_⟩
  · intro s v d
    by_cases hv : v = EventID.GET_FRAME_IMAGE
    · have hv128 : v = 128 := hv
      subst hv
      constructor
      · intro htrace
        simp [EventProcessor.ProcessEventAndData] at htrace
      · intro hne
        exact absurd hv128 hne
    · have hv128 : v ≠ 128 := hv
      simp [EventProcessor.ProcessEventAndData, hv, hv128, unsupportedLog]
  · intro h s c p
    by_cases hc : c = toUnsigned EventID.GET_FRAME_IMAGE
    · have hc128 : c = 128 := hc.trans toUnsigned_GET_FRAME_IMAGE
      constructor
      · intro htrace
        exfalso
        have hmem : unsupportedLog (c : Int) ∈ (s.ProcessCustomBlit h c p).trace := by
          rw [htrace]
          exact List.mem_singleton.mpr rfl
        rw [hc] at hmem
        by_cases h11 : s.m_DX11Graphics = nullptr
        · by_cases h12 : s.m_DX12Graphics = nullptr
          · rw [ProcessCustomBlit_trace_none h s p h11 h12] at hmem
            simp [unsupportedLog] at hmem
          · obtain ⟨m, w, ht | ⟨ht, hm⟩⟩ := ProcessCustomBlit_trace_D3D12 h s p h11 h12
            · rw [ht] at hmem
              rcases List.mem_cons.mp hmem with hl | hl
              · simp [unsupportedLog] at hl
              · exact unsupportedLog_not_mem_Execute h _ _ _ hl
            · rw [ht] at hmem
              rcases List.mem_append.mp hmem with hl | hl
              · rcases List.mem_cons.mp hl with hl | hl
                · simp [unsupportedLog] at hl
                · exact unsupportedLog_not_mem_Execute h _ _ _ hl
              · simp only [unsupportedLog, List.mem_singleton, Effect.LogError.injEq] at hl
                exact hm hl.1.symm
        · obtain ⟨m, w, ht | ⟨ht, hm⟩⟩ := ProcessCustomBlit_trace_D3D11 h s p h11
          · rw [ht] at hmem
            rcases List.mem_cons.mp hmem with hl | hl
            · simp [unsupportedLog] at hl
            · exact unsupportedLog_not_mem_Execute h _ _ _ hl
          · rw [ht] at hmem
            rcases List.mem_append.mp hmem with hl | hl
            · rcases List.mem_cons.mp hl with hl | hl
              · simp [unsupportedLog] at hl
              · exact unsupportedLog_not_mem_Execute h _ _ _ hl
            · simp only [unsupportedLog, List.mem_singleton, Effect.LogError.injEq] at hl
              exact hm hl.1.symm
      · intro hne
        exact absurd hc128 hne
    · have hc128 : c ≠ 128 := fun hx => hc (hx.trans toUnsigned_GET_FRAME_IMAGE.symm)
      constructor
      · intro _
        exact hc128
      · intro _
        exact ProcessCustomBlit_trace_other h s c p hc

/-- C9, failing input: a processor constructed with a D3D11 interface still
holds the value-initialised payload, and a custom blit for `GET_FRAME_IMAGE` of
a texture that answers the D3D11 query then calls through the null function
pointer and does not return; the same happens after a `GET_FRAME_IMAGE` event
whose payload carries a null function pointer. -/
theorem null_function_pointer_is_invoked :
    (EventProcessor.ctor ⟨1, 0, 0⟩).state.m_GetFrameImageData.m_rs_getFrameImage = nullptr ∧
    (EventProcessor.ctor ⟨1, 0, 0⟩).state.ProcessCustomBlit sampleHost
        (toUnsigned EventID.GET_FRAME_IMAGE) ⟨10⟩ =
      { state := ⟨1, 0, ⟨nullptr, 0⟩⟩
        trace := [Effect.TextureFromNativeTexture GraphicsAPI.D3D11 1 10,
                  Effect.QueryInterface 10 IID.IID_ID3D11Resource,
                  Effect.rs_getFrameImage nullptr 0 1 (SenderFrameTypeData.dx11 11)]
        returned := false } ∧
    ((EventProcessor.ctor ⟨1, 0, 0⟩).state.ProcessEventAndData EventID.GET_FRAME_IMAGE
        ⟨nullptr, 7⟩).state.ProcessCustomBlit sampleHost
        (toUnsigned EventID.GET_FRAME_IMAGE) ⟨10⟩ =
      { state := ⟨1, 0, ⟨nullptr, 7⟩⟩
        trace := [Effect.TextureFromNativeTexture GraphicsAPI.D3D11 1 10,
                  Effect.QueryInterface 10 IID.IID_ID3D11Resource,
                  Effect.rs_getFrameImage nullptr 7 1 (SenderFrameTypeData.dx11 11)]
        returned := false } := by
  decide

end NativeRenderingPlugin
